import Mathlib

/-!
Shallow embedding of the `io_scene_xsi3` Blender exporter
(`blend2xsi3.py` and `xsi_blender_exporter.py`).

Python lists/tuples are modelled as Lean `List`, Python floats as `ℚ`,
Python ints as `ℤ` or `ℕ`, `None` as `Option.none`, raised exceptions as
`Except.error`.  Mutable objects that are only ever consumed functionally
are modelled as immutable values; object identity (where it matters, in
the document frame table) is modelled by numeric ids.
-/

namespace B2X

/-! ### Module constants of blend2xsi3.py -/

def DEFAULT_DIFFUSE : List ℚ := [mkRat 7 10, mkRat 7 10, mkRat 7 10, 1]

def DEFAULT_SPECULAR : List ℚ := [mkRat 35 100, mkRat 35 100, mkRat 35 100]

def DEFAULT_EMISSIVE : List ℚ := [0, 0, 0]

def DEFAULT_AMBIENT : List ℚ := [mkRat 1 2, mkRat 1 2, mkRat 1 2]

def DEFAULT_HARDNESS : ℚ := 200

def DEFAULT_SHADING_TYPE : ℤ := 2

/-! ### Material (blend2xsi3.Material) -/

structure Material where
  diffuse : List ℚ
  specular : List ℚ
  emissive : List ℚ
  ambient : List ℚ
  hardness : ℚ
  shading_type : ℤ
  texture : Option String
deriving DecidableEq, Repr

/-- Python truthiness of an optional color argument: `arg if arg else default`
(`None` and the empty list are falsy). -/
def pyOr (arg : Option (List ℚ)) (default : List ℚ) : List ℚ :=
  match arg with
  | some (x :: xs) => x :: xs
  | _ => default

/-- Material.__init__ of blend2xsi3.py.  Argument order follows the source:
(diffuse, hardness, specular, ambient, emissive, shading_type, texture).
A raised `TypeError` is modelled as `Except.error`. -/
def Material.init (diffuse : Option (List ℚ)) (hardness : ℚ)
    (specular : Option (List ℚ)) (ambient : Option (List ℚ))
    (emissive : Option (List ℚ)) (shading_type : ℤ)
    (texture : Option String) : Except String Material :=
  let d0 := pyOr diffuse DEFAULT_DIFFUSE
  let s := pyOr specular DEFAULT_SPECULAR
  let e := pyOr emissive DEFAULT_EMISSIVE
  let a := pyOr ambient DEFAULT_AMBIENT
  let d := if d0.length = 3 then d0 ++ [1] else d0
  if d0.length ≠ 3 ∧ d0.length ≠ 4 then
    Except.error "Material Diffuse color must be RGB or RGBA."
  else if s.length ≠ 3 then
    Except.error "Material Specular color must be RGB."
  else if e.length ≠ 3 then
    Except.error "Material Emissive color must be RGB."
  else if a.length ≠ 3 then
    Except.error "Material Ambient color must be RGB."
  else
    Except.ok ⟨d, s, e, a, hardness, shading_type, texture⟩

/-- The material produced by `Material()` with every argument defaulted. -/
def Material.default_material : Material :=
  ⟨DEFAULT_DIFFUSE, DEFAULT_SPECULAR, DEFAULT_EMISSIVE, DEFAULT_AMBIENT,
    DEFAULT_HARDNESS, DEFAULT_SHADING_TYPE, none⟩

/-! ### AnimationKey (blend2xsi3.AnimationKey) -/

def TYPE_SIZE : List ℕ := [4, 3, 3, 3]

structure AnimationKey where
  key_type : ℤ
  keys : List (ℤ × List ℚ)
  vector_size : ℕ
deriving DecidableEq, Repr

/-- AnimationKey.__init__: `ValueError` for a key type outside `range(4)`. -/
def AnimationKey.init (key_type : ℤ) : Except String AnimationKey :=
  if ¬ (0 ≤ key_type ∧ key_type < 4) then
    Except.error "Invalid Animation Key Type"
  else
    Except.ok ⟨key_type, [], TYPE_SIZE.getD key_type.toNat 0⟩

/-- AnimationKey.add_key: `ValueError` on a vector whose length differs from
the key type's arity, otherwise the pair is appended to `keys`. -/
def AnimationKey.add_key (a : AnimationKey) (keyframe : ℤ) (vector : List ℚ) :
    Except String AnimationKey :=
  if vector.length ≠ a.vector_size then
    Except.error "Incorrect Vector Size"
  else
    Except.ok { a with keys := a.keys ++ [(keyframe, vector)] }

/-! ### Envelope (blend2xsi3.Envelope) -/

/-- Envelope stores a reference to its bone Frame; the writer only ever uses
the bone's name, so the reference is modelled by that name. -/
structure Envelope where
  bone_name : String
  vertices : List (ℕ × ℚ)
deriving DecidableEq, Repr

/-! ### Mesh (blend2xsi3.Mesh) -/

structure Mesh where
  name : Option String
  vertices : List (List ℚ)
  faces : List (List ℕ)
  normal_vertices : List (List ℚ)
  normal_faces : List (List ℕ)
  uv_vertices : List (List ℚ)
  uv_faces : List (List ℕ)
  face_materials : List Material
  vertex_colors : List (List ℚ)
  vertex_color_faces : List (List ℕ)
deriving DecidableEq, Repr

/-- Accumulating helper for Mesh.get_material_indices: for each face material,
append it to the material list if not yet present, and record its index
(`materials.index(material)` runs after the possible append). -/
def materialIndicesAux : List Material → List Material → List ℕ × List Material
  | [], mats => ([], mats)
  | m :: rest, mats =>
    let mats2 := if mats.contains m then mats else mats ++ [m]
    let r := materialIndicesAux rest mats2
    (mats2.indexOf m :: r.1, r.2)

def Mesh.get_material_indices (mesh : Mesh) : List ℕ × List Material :=
  materialIndicesAux mesh.face_materials []

/-! ### Frame (blend2xsi3.Frame)

The `parent` back-reference and the exporter-only `pose`/`transform`
attributes are not used by any embedded operation and are omitted.
The `frames` child list is represented by the mutually-defined
`FrameList` (isomorphic to `List Frame`) so that the recursive tree
operations below are structurally recursive and compute. -/

mutual

inductive Frame where
  | mk (name : String) (is_bone : Bool)
       (basepose_sca_xyz basepose_rot_xyz basepose_pos_xyz : Option (List ℚ))
       (srt_sca_xyz srt_rot_xyz srt_pos_xyz : Option (List ℚ))
       (mesh : Option Mesh)
       (frames : FrameList)
       (animation_keys : List AnimationKey)
       (envelopes : List Envelope)

inductive FrameList where
  | nil
  | cons (f : Frame) (fs : FrameList)

end

def Frame.name : Frame → String
  | .mk n _ _ _ _ _ _ _ _ _ _ _ => n

def Frame.is_bone : Frame → Bool
  | .mk _ b _ _ _ _ _ _ _ _ _ _ => b

def Frame.mesh : Frame → Option Mesh
  | .mk _ _ _ _ _ _ _ _ m _ _ _ => m

def Frame.frames : Frame → FrameList
  | .mk _ _ _ _ _ _ _ _ _ f _ _ => f

def Frame.animation_keys : Frame → List AnimationKey
  | .mk _ _ _ _ _ _ _ _ _ _ a _ => a

def Frame.envelopes : Frame → List Envelope
  | .mk _ _ _ _ _ _ _ _ _ _ _ e => e

/-! ### _FrameContainer traversal (blend2xsi3._FrameContainer)

`get_all_frames` yields each child frame followed by that child's own
traversal (depth-first pre-order).  A container is represented by its
list of child frames. -/

mutual

def getAllFramesList : FrameList → List Frame
  | .nil => []
  | .cons f fs => f :: (frameAllFrames f ++ getAllFramesList fs)

/-- Frame.get_all_frames on a single frame's own children. -/
def frameAllFrames : Frame → List Frame
  | Frame.mk _ _ _ _ _ _ _ _ _ cs _ _ => getAllFramesList cs

end

/-- Model of _FrameContainer.find_frame: first frame in the traversal with the given
name (Python implicitly returns `None` when there is no match). -/
def find_frame (fs : FrameList) (name : String) : Option Frame :=
  (getAllFramesList fs).find? (fun f => f.name == name)

/-- Model of _FrameContainer.get_skinned_frames: frames with a non-empty envelope
list (Python truthiness of `frame.envelopes`). -/
def get_skinned_frames (fs : FrameList) : List Frame :=
  (getAllFramesList fs).filter (fun f => !f.envelopes.isEmpty)

/-- Model of _FrameContainer.get_envelope_count:
`sum(len(f.envelopes) for f in self.get_skinned_frames())`. -/
def get_envelope_count (fs : FrameList) : ℕ :=
  ((get_skinned_frames fs).map (fun f => f.envelopes.length)).sum

/-- What the spec says `envelope_count()` returns: the total number of
(vertex-index, weight) entries across the envelopes of all frames whose
envelope list is non-empty. -/
def specEnvelopeEntryCount (fs : FrameList) : ℕ :=
  ((get_skinned_frames fs).map
    (fun f => (f.envelopes.map (fun e => e.vertices.length)).sum)).sum

/-! ### XSI document and add_frame (blend2xsi3.XSI / _FrameContainer.add_frame)

The document's global `frame_table` is a Python dict from names to Frame
objects.  Object identity is modelled by numeric ids handed out by a
counter; dict assignment overwrites the value stored under an existing
key in place. -/

/-- Python dict assignment `tbl[k] = v`: overwrite in place if the key is
present, else append a new entry. -/
def dict_set (tbl : List (String × ℕ)) (k : String) (v : ℕ) :
    List (String × ℕ) :=
  if tbl.any (fun p => p.1 == k) then
    tbl.map (fun p => if p.1 == k then (k, v) else p)
  else
    tbl ++ [(k, v)]

/-- Python dict lookup `tbl[k]` (as an Option). -/
def dict_get (tbl : List (String × ℕ)) (k : String) : Option ℕ :=
  (tbl.find? (fun p => p.1 == k)).map (fun p => p.2)

structure XSIDoc where
  frame_table : List (String × ℕ)
  frames : List ℕ
  next_id : ℕ
deriving DecidableEq, Repr

/-- Model of _FrameContainer.add_frame, called on the document root.  `noexcept` is
the module flag DUPLICATE_FRAME_NOEXCEPT; the raised `DuplicateFrame`
exception is modelled as `Except.error`.  On success the new Frame (fresh
id) is registered in the table and appended to the container's children,
and the new frame is returned. -/
def add_frame (noexcept : Bool) (d : XSIDoc) (name : String) :
    Except String (XSIDoc × ℕ) :=
  if d.frame_table.any (fun p => p.1 == name) && !noexcept then
    Except.error ("Duplicate Frame " ++ name)
  else
    Except.ok (⟨dict_set d.frame_table name d.next_id,
               d.frames ++ [d.next_id], d.next_id + 1⟩, d.next_id)

/-! ### Scene-cursor control flow of Save.__init__ (xsi_blender_exporter.py)

`Save.__init__` records `original_keyframe_position`, runs the traversal
(object conversion, skin-weight sampling and animation sampling, which
call `scene.frame_set`), and only after the traversal completes normally
sets the cursor back.  There is no try/finally in the source, so an
exception propagates with the cursor left wherever the traversal put it. -/

inductive TraceStep where
  | set_frame (n : ℤ)
  | raise
deriving DecidableEq, Repr

inductive PyResult where
  | ok (cursor : ℤ)
  | exc (cursor : ℤ)
deriving DecidableEq, Repr

/-- Runs a traversal body: a sequence of `scene.frame_set` calls possibly
interrupted by a raised exception. -/
def runSteps : List TraceStep → ℤ → PyResult
  | [], cur => PyResult.ok cur
  | TraceStep.set_frame n :: rest, _ => runSteps rest n
  | TraceStep.raise :: _, cur => PyResult.exc cur

/-- Control flow of Save.__init__ around the scene frame cursor: save the
original position, run the body, and restore only on normal completion
(mirroring the final `if frame_current != original: frame_set(original)`
with no surrounding try/finally). -/
def saveInit (body : ℤ → PyResult) (cur : ℤ) : PyResult :=
  let original := cur
  match body cur with
  | PyResult.exc c => PyResult.exc c
  | PyResult.ok c => PyResult.ok (if c ≠ original then original else c)

/-! ### Save.matrix_to_xsi (xsi_blender_exporter.py)

A mathutils 4x4 matrix is modelled row-major with integer entries (the
operation only permutes and negates entries, so integers suffice to
exhibit its behaviour). -/

structure Vec4 where
  x : ℤ
  y : ℤ
  z : ℤ
  w : ℤ
deriving DecidableEq, Repr

def Vec4.neg (v : Vec4) : Vec4 := ⟨-v.x, -v.y, -v.z, -v.w⟩

structure Mat4 where
  r0 : Vec4
  r1 : Vec4
  r2 : Vec4
  r3 : Vec4
deriving DecidableEq, Repr

def Mat4.col1 (m : Mat4) : Vec4 := ⟨m.r0.y, m.r1.y, m.r2.y, m.r3.y⟩

def Mat4.col2 (m : Mat4) : Vec4 := ⟨m.r0.z, m.r1.z, m.r2.z, m.r3.z⟩

def Mat4.setCol1 (m : Mat4) (c : Vec4) : Mat4 :=
  ⟨{ m.r0 with y := c.x }, { m.r1 with y := c.y },
   { m.r2 with y := c.z }, { m.r3 with y := c.w }⟩

def Mat4.setCol2 (m : Mat4) (c : Vec4) : Mat4 :=
  ⟨{ m.r0 with z := c.x }, { m.r1 with z := c.y },
   { m.r2 with z := c.z }, { m.r3 with z := c.w }⟩

/-- Save.matrix_to_xsi: `row[1], row[2] = row[2], -row[1]` followed by
`col[1], col[2] = col[2], -col[1]`, both snapshots taken before the
assignments (the Python mutates the matrix in place; the embedding
returns the mutated value). -/
def matrix_to_xsi (m : Mat4) : Mat4 :=
  let row_y := m.r1.neg
  let row_z := m.r2
  let m1 : Mat4 := { m with r1 := row_z, r2 := row_y }
  let col_y := m1.col1.neg
  let col_z := m1.col2
  (m1.setCol1 col_z).setCol2 col_y

/-! ### Save.mesh_to_bz2mesh (xsi_blender_exporter.py)

Only the export options that this method reads are modelled.  Blender
materials are kept abstract (type parameter β); the call to
`self.material_to_bz2material` is passed in as a function.  Python list
indexing that would raise `IndexError` out of range is modelled with
`getD` (the inputs of interest are always in range). -/

def ALLOW_MESH_WITH_NO_MATERIAL : Bool := false

structure SaveOpts where
  export_jedi : Bool
  export_mesh_materials : Bool
  export_mesh_uvmap : Bool
  export_mesh_vertcolor : Bool
deriving DecidableEq, Repr

structure BPolygon where
  vertices : List ℕ
  material_index : ℕ
  loop_indices : List ℕ
deriving DecidableEq, Repr

structure BMeshData (β : Type) where
  name : String
  vertices : List (List ℚ)
  polygons : List BPolygon
  materials : List β
  loop_normals : List (List ℚ)
  uv_layer : Option (List (List ℚ))
  color_layer : Option (List (List ℚ))

def mesh_to_bz2mesh {β : Type} (opt : SaveOpts)
    (material_to_bz2material : β → Material)
    (data : BMeshData β) (name : Option String) : Mesh :=
  let mname := match name with
    | some n => if n = "" then data.name else n
    | none => data.name
  let bz2materials :=
    if opt.export_mesh_materials then
      data.materials.map material_to_bz2material
    else []
  let vertices := data.vertices.map (fun co =>
    if opt.export_jedi then
      [co.getD 0 0, co.getD 2 0, -(co.getD 1 0)]
    else co)
  let faces := data.polygons.map (fun p => p.vertices)
  let face_materials :=
    if !bz2materials.isEmpty then
      data.polygons.map
        (fun p => bz2materials.getD p.material_index Material.default_material)
    else if !ALLOW_MESH_WITH_NO_MATERIAL then
      [Material.default_material]
    else []
  let normal_vertices :=
    (data.polygons.map
      (fun p => p.loop_indices.map (fun i => data.loop_normals.getD i []))).flatten
  let normal_faces := data.polygons.map (fun p => p.loop_indices)
  let uv_vertices := match data.uv_layer with
    | some uv =>
      if opt.export_mesh_uvmap then
        (data.polygons.map
          (fun p => p.loop_indices.map (fun i => uv.getD i []))).flatten
      else []
    | none => []
  let uv_faces := match data.uv_layer with
    | some _ => if opt.export_mesh_uvmap then normal_faces else []
    | none => []
  let vertex_colors := match data.color_layer with
    | some cl =>
      if opt.export_mesh_vertcolor then
        (data.polygons.map
          (fun p => p.loop_indices.map (fun i => cl.getD i []))).flatten
      else []
    | none => []
  let vertex_color_faces := match data.color_layer with
    | some _ => if opt.export_mesh_vertcolor then normal_faces else []
    | none => []
  { name := some mname
    vertices := vertices
    faces := faces
    normal_vertices := normal_vertices
    normal_faces := normal_faces
    uv_vertices := uv_vertices
    uv_faces := uv_faces
    face_materials := face_materials
    vertex_colors := vertex_colors
    vertex_color_faces := vertex_color_faces }

/-! ### Writer (blend2xsi3.Writer)

`Writer.write(t, data)` writes `"\t" * t + data + "\n"` to the file; the
embedding collects the string produced by each write call in a list, so
the file contents are the concatenation of that list.  Literal braces in
the emitted text are written with their escapes. -/

def allowed_chars : String :=
  "QWERTYUIOPASDFGHJKLZXCVBNMqwertyuiopasdfghjklzxcvbnm1234567890_-"

/-- Writer.get_safe_name (with the default substitute "_"): an empty name
becomes "unnamed", then every character outside the allow-list is
replaced. -/
def get_safe_name (name : String) : String :=
  let name := if name = "" then "unnamed" else name
  String.mk (name.data.map (fun c => if allowed_chars.data.contains c then c else '_'))

/-- One Writer.write call. -/
def wline (t : ℕ) (data : String) : List String :=
  [String.mk (List.replicate t '\t') ++ data ++ "\n"]

/-- Models C-style "%f" formatting of a rational: fixed point with six
decimals (rounding to nearest, as printf does up to tie-breaking, which
never matters for the inputs used here).  The scaled value is
⌊q·10⁶ + 1/2⌋, computed on numerator and denominator so that it
evaluates by reduction. -/
def fmtF (q : ℚ) : String :=
  let scaled : ℤ := Int.ediv (q.num * 2000000 + (q.den : ℤ)) (2 * (q.den : ℤ))
  let sign := if scaled < 0 then "-" else ""
  let a := scaled.natAbs
  let ip := a / 1000000
  let fp := a % 1000000
  let fs := toString fp
  sign ++ toString ip ++ "." ++ String.mk (List.replicate (6 - fs.length) '0') ++ fs

/-- Models "%f,%f,%f"-style row formatting (one "%f" per component). -/
def fmtRowF (v : List ℚ) : String := String.intercalate "," (v.map fmtF)

/-- Models "%i,%i,%i"-style row formatting of index tuples. -/
def fmtRowI (v : List ℕ) : String := String.intercalate "," (v.map toString)

/-- Writer.write_vector_list.  `fmtRow` stands for `format_string %
tuple(vector)`.  The Python `for ... else` always writes the last vector
with an extra newline; an empty vector list returns right after the
header strings. -/
def write_vector_list {α : Type} (t : ℕ) (fmtRow : α → String)
    (vectors : List α) (type_string type_string2 : Option String)
    (newline_string2 total : Bool) : List String :=
  (if total then wline t (toString vectors.length ++ ",") else [])
  ++ (match type_string with
      | some s => wline t ("\"" ++ s ++ "\",")
      | none => [])
  ++ (match type_string2 with
      | some s =>
        if newline_string2 then wline t ("\"" ++ s ++ "\",\n")
        else wline t ("\"" ++ s ++ "\",")
      | none => [])
  ++ (match vectors with
      | [] => []
      | v :: vs =>
        ((v :: vs).dropLast.map (fun w => wline t (fmtRow w ++ ","))).flatten
        ++ wline t (fmtRow ((v :: vs).getLast (List.cons_ne_nil v vs)) ++ ",\n"))

/-- Writer.write_transform. -/
def write_transform (t : ℕ) (sca rot pos : List ℚ) (block_name : String) :
    List String :=
  wline t (block_name ++ " \x7b")
  ++ wline (t+1) (fmtF (sca.getD 0 0) ++ ",")
  ++ wline (t+1) (fmtF (sca.getD 1 0) ++ ",")
  ++ wline (t+1) (fmtF (sca.getD 2 0) ++ ",")
  ++ wline (t+1) (fmtF (rot.getD 0 0) ++ ",")
  ++ wline (t+1) (fmtF (rot.getD 1 0) ++ ",")
  ++ wline (t+1) (fmtF (rot.getD 2 0) ++ ",")
  ++ wline (t+1) (fmtF (pos.getD 0 0) ++ ",")
  ++ wline (t+1) (fmtF (pos.getD 1 0) ++ ",")
  ++ wline (t+1) (fmtF (pos.getD 2 0) ++ ",")
  ++ wline t "\x7d\n"

/-- Substring test (`"bolt_" in name` in Python). -/
def strContainsSub (s pat : String) : Bool :=
  decide (pat.data <:+: s.data)

/-- Writer.write_mesh. -/
def write_mesh (t : ℕ) (mesh : Mesh) (name : String) : List String :=
  wline t ("SI_Mesh MSH-" ++ get_safe_name name ++ " \x7b")
  ++ (if mesh.vertices.isEmpty then [] else
      wline (t+1) ("SI_Shape SHP-" ++ get_safe_name name ++ "-ORG \x7b")
      ++ (if strContainsSub (get_safe_name name) "bolt_" then
            wline (t+2) "2,"
          else
            wline (t+2) "3,")
      ++ wline (t+2) "\"ORDERED\",\n"
      ++ write_vector_list (t+2) fmtRowF mesh.vertices (some "POSITION") none false false
      ++ (if mesh.normal_vertices.isEmpty then [] else
          write_vector_list (t+2) fmtRowF mesh.normal_vertices (some "NORMAL") none false false)
      ++ (if mesh.uv_vertices.isEmpty then [] else
          write_vector_list (t+2) fmtRowF mesh.uv_vertices (some "TEX_COORD_UV") none false false)
      ++ wline (t+1) "\x7d\n"
      ++ wline (t+1) ("SI_TriangleList " ++ get_safe_name name ++ " \x7b")
      ++ (if mesh.faces.isEmpty then [] else
          if !mesh.normal_vertices.isEmpty && mesh.uv_vertices.isEmpty then
            write_vector_list (t+2) fmtRowI mesh.faces (some "NORMAL") (some "default_material") true true
            ++ write_vector_list (t+2) fmtRowI mesh.normal_faces none none false false
          else if !mesh.uv_vertices.isEmpty && mesh.normal_vertices.isEmpty then
            write_vector_list (t+2) fmtRowI mesh.faces (some "TEX_COORD_UV") (some "default_material") true true
            ++ write_vector_list (t+2) fmtRowI mesh.uv_faces none none false false
          else if !mesh.normal_vertices.isEmpty && !mesh.uv_vertices.isEmpty then
            write_vector_list (t+2) fmtRowI mesh.faces (some "NORMAL|TEX_COORD_UV") (some "default_material") true true
            ++ write_vector_list (t+2) fmtRowI mesh.normal_faces none none false false
            ++ write_vector_list (t+2) fmtRowI mesh.uv_faces none none false false
          else [])
      ++ wline (t+1) "\x7d\n")
  ++ wline t "\x7d\n"

/-- Python truthiness of an optional transform tuple. -/
def pyTruthy : Option (List ℚ) → Bool
  | some (_ :: _) => true
  | _ => false

mutual

/-- Writer.write_si_model on one frame; the commented-out FCurve section of
the source is omitted as it is in the source. -/
def write_si_model_one : ℕ → Frame → List String
  | t, Frame.mk name is_bone bsca brot bpos ssca srot spos mesh frames _anim _env =>
    let safe := get_safe_name name
    (wline t ("SI_Model MDL-" ++ safe ++ " \x7b")
    ++ (if pyTruthy bsca && pyTruthy brot && pyTruthy bpos then
          write_transform (t+1) (bsca.getD []) (brot.getD []) (bpos.getD [])
            ("SI_Transform BASEPOSE-" ++ safe)
        else [])
    ++ (if pyTruthy ssca && pyTruthy srot && pyTruthy spos then
          write_transform (t+1) (ssca.getD []) (srot.getD []) (spos.getD [])
            ("SI_Transform SRT-" ++ safe)
        else [])
    ++ wline (t+1) "SI_Visibility \x7b"
    ++ wline (t+2) "1,"
    ++ wline (t+1) "\x7d\n"
    ++ (if is_bone then
          wline (t+1) ("SI_Null " ++ safe ++ " \x7b") ++ wline (t+1) "\x7d\n"
        else [])
    ++ (match mesh with
        | none => []
        | some m =>
          (if !m.face_materials.isEmpty && !m.faces.isEmpty then
            (m.get_material_indices.2.map (fun mat =>
              match mat.texture with
              | none => []
              | some tex =>
                wline (t+1) "SI_GlobalMaterial \x7b"
                ++ wline (t+2) "\"default_material\","
                ++ wline (t+2) "\"NODE\","
                ++ wline (t+1) "\x7d\n"
                ++ wline (t+1) ("XSI_CustomPSet " ++ safe ++ " \x7b")
                ++ wline (t+2) "\"NODE\","
                ++ wline (t+2) "1,"
                ++ wline (t+2) ("\"Shader\",\"Text\",\"" ++
                     ((tex.trimLeft.splitOn "base\\").getD 1 "") ++ "\",")
                ++ wline (t+1) "\x7d\n")).flatten
          else [])
          ++ write_mesh (t+1) m
               (match m.name with
                | some n => if n = "" then name else n
                | none => name)))
    ++ write_si_children (t+1) frames
    ++ wline t "\x7d\n"

/-- The children loop at the end of Writer.write_si_model. -/
def write_si_children : ℕ → FrameList → List String
  | _, .nil => []
  | t, .cons f fs => write_si_model_one t f ++ write_si_children t fs

end

/-- Writer.write_si_model on a single frame. -/
def write_si_model (t : ℕ) (frame : Frame) : List String :=
  write_si_model_one t frame

/-! ## Helper lemmas -/

theorem sum_envelopes_filter (l : List Frame) :
    ((l.filter (fun f => !f.envelopes.isEmpty)).map (fun f => f.envelopes.length)).sum
      = (l.map (fun f => f.envelopes.length)).sum := by
  induction l with
  | nil => rfl
  | cons a l ih =>
    by_cases h : a.envelopes.isEmpty
    · have h0 : a.envelopes = [] := List.isEmpty_iff.mp h
      simp [List.filter_cons, h, ih, h0]
    · simp [List.filter_cons, h, ih]

theorem find_map_overwrite (k : String) (v : ℕ) (l : List (String × ℕ))
    (h : l.any (fun p => p.1 == k) = true) :
    (l.map (fun p => if p.1 == k then (k, v) else p)).find? (fun p => p.1 == k)
      = some (k, v) := by
  induction l with
  | nil => simp at h
  | cons q rest ih =>
    rw [List.map_cons]
    by_cases hq : q.1 = k
    · have hq2 : (q.1 == k) = true := by simpa using hq
      rw [show (if q.1 == k then (k, v) else q) = (k, v) from by simp [hq2]]
      exact List.find?_cons_of_pos _ (by simp)
    · have hq2 : (q.1 == k) = false := by simpa using hq
      have h2 : rest.any (fun p => p.1 == k) = true := by
        simpa [List.any_cons, hq2] using h
      rw [show (if q.1 == k then (k, v) else q) = q from by simp [hq2]]
      rw [List.find?_cons_of_neg _ (by simp [hq2])]
      exact ih h2

theorem find_append_new (k : String) (v : ℕ) (l : List (String × ℕ))
    (h : l.any (fun p => p.1 == k) = false) :
    (l ++ [(k, v)]).find? (fun p => p.1 == k) = some (k, v) := by
  induction l with
  | nil => simp [List.find?]
  | cons q rest ih =>
    rw [List.any_cons] at h
    rcases Bool.or_eq_false_iff.mp h with ⟨hq, hr⟩
    simp [List.cons_append, List.find?, hq, ih hr]

theorem dict_get_set (tbl : List (String × ℕ)) (k : String) (v : ℕ) :
    dict_get (dict_set tbl k v) k = some v := by
  unfold dict_set dict_get
  by_cases h : tbl.any (fun p => p.1 == k) = true
  · rw [if_pos h, find_map_overwrite k v tbl h]
    rfl
  · have h2 : tbl.any (fun p => p.1 == k) = false := by
      cases hv : tbl.any (fun p => p.1 == k)
      · rfl
      · exact absurd hv h
    rw [if_neg h, find_append_new k v tbl h2]
    rfl

/-! ## Claims -/

/-- C1 counterexample: a document with one frame carrying one envelope that
holds two (vertex-index, weight) entries.  get_envelope_count returns 1
(the number of envelopes), while the spec's description would give 2 (the
number of weight entries). -/
theorem envelope_count_counterexample :
    get_envelope_count
        (FrameList.cons
          (Frame.mk "Skin" false none none none none none none none
            FrameList.nil [] [⟨"Bone", [(0, 1), (1, 1)]⟩]) FrameList.nil) = 1
    ∧ specEnvelopeEntryCount
        (FrameList.cons
          (Frame.mk "Skin" false none none none none none none none
            FrameList.nil [] [⟨"Bone", [(0, 1), (1, 1)]⟩]) FrameList.nil) = 2
    ∧ (1 : ℕ) ≠ 2 := by
  refine ⟨by decide, by decide, by decide⟩

/-- C1 amended: get_envelope_count returns the total number of Envelope
objects across all frames (equivalently, across the frames with a
non-empty envelope list, since the others contribute zero), not the
number of (vertex-index, weight) entries. -/
theorem envelope_count_eq_total_envelopes (fs : FrameList) :
    get_envelope_count fs
      = ((getAllFramesList fs).map (fun f => f.envelopes.length)).sum := by
  unfold get_envelope_count get_skinned_frames
  exact sum_envelopes_filter _

/-- C2 counterexample: with the permit-duplicates flag on, a second
add_frame under an already-registered name overwrites the name-table
entry with the new frame (id 1) instead of keeping the first frame's
entry (id 0). -/
theorem add_frame_counterexample :
    add_frame true ⟨[("a", 0)], [0], 1⟩ "a"
      = Except.ok (⟨[("a", 1)], [0, 1], 2⟩, 1)
    ∧ dict_get [("a", 1)] "a" = some 1
    ∧ dict_get [("a", 0)] "a" = some 0
    ∧ (1 : ℕ) ≠ 0 := by
  refine ⟨rfl, rfl, rfl, by decide⟩

/-- C2 amended: add_frame raises a duplicate-name error whenever the name
is already registered and the permit-duplicates flag is off; when the
flag is on it succeeds, REPLACES the name-table entry with the new frame,
and appends the new frame as a child of the container. -/
theorem add_frame_spec :
    (∀ (d : XSIDoc) (name : String),
       d.frame_table.any (fun p => p.1 == name) = true →
       add_frame false d name = Except.error ("Duplicate Frame " ++ name))
    ∧ (∀ (d : XSIDoc) (name : String),
       add_frame true d name
         = Except.ok (⟨dict_set d.frame_table name d.next_id,
                      d.frames ++ [d.next_id], d.next_id + 1⟩, d.next_id)
       ∧ dict_get (dict_set d.frame_table name d.next_id) name
           = some d.next_id) := by
  constructor
  · intro d name h
    unfold add_frame
    rw [if_pos (by simp [h])]
  · intro d name
    refine ⟨?_, dict_get_set _ _ _⟩
    unfold add_frame
    rw [if_neg (by simp)]

theorem add_frame_spec_witness :
    add_frame false ⟨[("a", 0)], [0], 1⟩ "a"
      = Except.error ("Duplicate Frame " ++ "a")
    ∧ dict_get (dict_set [("a", 0)] "a" 1) "a" = some 1 :=
  ⟨add_frame_spec.1 ⟨[("a", 0)], [0], 1⟩ "a" (by decide),
   (add_frame_spec.2 ⟨[("a", 0)], [0], 1⟩ "a").2⟩

/-- C3 counterexample: a traversal that moves the scene cursor to 5 and
then raises leaves the cursor at 5 on the exception exit path, not at
its original value 0 (Save.__init__ has no try/finally around the
traversal). -/
theorem save_restore_counterexample :
    saveInit (runSteps [TraceStep.set_frame 5, TraceStep.raise]) 0
      = PyResult.exc 5
    ∧ (5 : ℤ) ≠ 0 := by
  refine ⟨rfl, by decide⟩

/-- C3 amended: the scene cursor is restored to its original value on
every NORMAL completion of Save.__init__; an exception raised during
traversal propagates without the restore running. -/
theorem save_restore_on_normal_exit (body : ℤ → PyResult) (cur c : ℤ)
    (h : saveInit body cur = PyResult.ok c) : c = cur := by
  unfold saveInit at h
  cases hb : body cur with
  | exc x => rw [hb] at h; cases h
  | ok x =>
    rw [hb] at h
    injection h with h
    by_cases hx : x = cur
    · rw [if_neg (by simp [hx])] at h
      rw [← h, hx]
    · rw [if_pos hx] at h
      exact h.symm

theorem save_restore_witness : (0 : ℤ) = 0 :=
  save_restore_on_normal_exit (runSteps [TraceStep.set_frame 5]) 0 0 (by decide)

/-- Support data for C4: a Blender mesh with two triangles and no
materials. -/
def noMatData : BMeshData Unit :=
  { name := "mesh"
    vertices := [[0, 0, 0], [1, 0, 0], [0, 1, 0], [1, 1, 0]]
    polygons := [⟨[0, 1, 2], 0, [0, 1, 2]⟩, ⟨[1, 3, 2], 0, [3, 4, 5]⟩]
    materials := []
    loop_normals := [[0, 0, 1], [0, 0, 1], [0, 0, 1], [0, 0, 1], [0, 0, 1], [0, 0, 1]]
    uv_layer := none
    color_layer := none }

def noMatOpts : SaveOpts := ⟨false, true, false, false⟩

/-- C4 counterexample: converting a 2-face mesh with no materials (and
"allow mesh with no material" off) produces face_materials of length 1,
not length 2 == len(faces): the default material is a singleton list, not
one entry per face. -/
theorem mesh_no_material_counterexample :
    (mesh_to_bz2mesh noMatOpts (fun _ => Material.default_material)
      noMatData (some "mesh")).face_materials.length = 1
    ∧ (mesh_to_bz2mesh noMatOpts (fun _ => Material.default_material)
      noMatData (some "mesh")).faces.length = 2
    ∧ (1 : ℕ) ≠ 2 := by
  refine ⟨rfl, rfl, by decide⟩

/-- C4 amended: when the mesh has no materials (or material export is off)
and ALLOW_MESH_WITH_NO_MATERIAL is false, the resulting Mesh's
face_materials is the singleton list holding the synthesized default
Material; the len(face_materials) == len(faces) invariant holds only in
the branch where the mesh's own materials are exported. -/
theorem mesh_no_material_default (β : Type) (opt : SaveOpts)
    (conv : β → Material) (data : BMeshData β) (name : Option String)
    (h : data.materials = [] ∨ opt.export_mesh_materials = false) :
    (mesh_to_bz2mesh opt conv data name).face_materials
      = [Material.default_material] := by
  unfold mesh_to_bz2mesh
  rcases h with h | h
  · simp [h, ALLOW_MESH_WITH_NO_MATERIAL]
  · simp [h, ALLOW_MESH_WITH_NO_MATERIAL]

theorem mesh_no_material_default_witness :
    (mesh_to_bz2mesh noMatOpts (fun _ => Material.default_material)
      noMatData (some "mesh")).face_materials = [Material.default_material] :=
  mesh_no_material_default Unit noMatOpts (fun _ => Material.default_material)
    noMatData (some "mesh") (Or.inl rfl)

/-- Support data for C8: the Box mesh (8 vertices, 6 quad faces, one
material with no texture). -/
def boxMesh : Mesh :=
  { name := some "Box"
    vertices := [[-1, -1, -1], [1, -1, -1], [1, 1, -1], [-1, 1, -1],
                 [-1, -1, 1], [1, -1, 1], [1, 1, 1], [-1, 1, 1]]
    faces := [[0, 1, 2, 3], [4, 5, 6, 7], [0, 1, 5, 4],
              [2, 3, 7, 6], [1, 2, 6, 5], [0, 3, 7, 4]]
    normal_vertices := []
    normal_faces := []
    uv_vertices := []
    uv_faces := []
    face_materials := List.replicate 6 Material.default_material
    vertex_colors := []
    vertex_color_faces := [] }

def boxFrame : Frame :=
  Frame.mk "Box" false none none none none none none (some boxMesh)
    FrameList.nil [] []

def rootFrame : Frame :=
  Frame.mk "Root" false none none none none none none none
    (FrameList.cons boxFrame FrameList.nil) [] []

/-- Subsequence test used to state that certain lines occur in order in the
serialized output. -/
def isSubseqOf : List String → List String → Bool
  | [], _ => true
  | _ :: _, [] => false
  | a :: as, b :: bs => if a == b then isSubseqOf as bs else isSubseqOf (a :: as) bs

/-- C8: serializing the document with root Frame "Root" whose child "Box"
carries the 8-vertex 6-quad-face one-material mesh opens with the
top-level block SI_Model MDL-Root and contains, in order and at
increasing nesting depth, SI_Model MDL-Box, SI_Mesh MSH-Box, SI_Shape
SHP-Box-ORG, and then SI_TriangleList Box, with the root block's closing
brace last. -/
theorem write_si_model_nesting :
    (write_si_model 0 rootFrame).head? = some "SI_Model MDL-Root \x7b\n"
    ∧ isSubseqOf
        ["SI_Model MDL-Root \x7b\n",
         "\tSI_Model MDL-Box \x7b\n",
         "\t\tSI_Mesh MSH-Box \x7b\n",
         "\t\t\tSI_Shape SHP-Box-ORG \x7b\n",
         "\t\t\tSI_TriangleList Box \x7b\n"]
        (write_si_model 0 rootFrame) = true
    ∧ (write_si_model 0 rootFrame).getLast? = some "\x7d\n\n" := by
  refine ⟨by decide, by decide, by decide⟩

/-- C5: constructing an AnimationKey fails exactly outside key types
0, 1, 2, 3; a constructed key's arity is 4 for type 0 (quaternion) and 3
for types 1, 2, 3 (scale, translation, Euler); add_key fails exactly when
the vector length differs from that arity, and on success appends the
(keyframe, vector) pair with the vector unchanged. -/
theorem animationkey_spec :
    (∀ kt : ℤ, (∃ a, AnimationKey.init kt = Except.ok a)
       ↔ (kt = 0 ∨ kt = 1 ∨ kt = 2 ∨ kt = 3))
    ∧ (∀ (kt : ℤ) (a : AnimationKey), AnimationKey.init kt = Except.ok a →
        a.vector_size = if kt = 0 then 4 else 3)
    ∧ (∀ (a : AnimationKey) (kf : ℤ) (v : List ℚ),
        (∃ a2, a.add_key kf v = Except.ok a2) ↔ v.length = a.vector_size)
    ∧ (∀ (a : AnimationKey) (kf : ℤ) (v : List ℚ) (a2 : AnimationKey),
        a.add_key kf v = Except.ok a2 →
        a2.keys = a.keys ++ [(kf, v)] ∧ a2.key_type = a.key_type
          ∧ a2.vector_size = a.vector_size) := by
  refine ⟨?_, ?_, ?_, ?_⟩
  · intro kt
    constructor
    · rintro ⟨a, ha⟩
      unfold AnimationKey.init at ha
      by_cases h : 0 ≤ kt ∧ kt < 4
      · omega
      · rw [if_pos h] at ha
        cases ha
    · intro h
      have hb : 0 ≤ kt ∧ kt < 4 := by omega
      refine ⟨⟨kt, [], TYPE_SIZE.getD kt.toNat 0⟩, ?_⟩
      unfold AnimationKey.init
      rw [if_neg (not_not_intro hb)]
  · intro kt a ha
    unfold AnimationKey.init at ha
    by_cases h : 0 ≤ kt ∧ kt < 4
    · rw [if_neg (not_not_intro h)] at ha
      injection ha with ha
      subst ha
      obtain ⟨h1, h2⟩ := h
      interval_cases kt <;> decide
    · rw [if_pos h] at ha
      cases ha
  · intro a kf v
    constructor
    · rintro ⟨a2, h2⟩
      unfold AnimationKey.add_key at h2
      by_cases h : v.length = a.vector_size
      · exact h
      · rw [if_pos h] at h2
        cases h2
    · intro h
      refine ⟨{ a with keys := a.keys ++ [(kf, v)] }, ?_⟩
      unfold AnimationKey.add_key
      rw [if_neg (not_not_intro h)]
  · intro a kf v a2 h2
    unfold AnimationKey.add_key at h2
    by_cases h : v.length = a.vector_size
    · rw [if_neg (not_not_intro h)] at h2
      injection h2 with h2
      subst h2
      exact ⟨rfl, rfl, rfl⟩
    · rw [if_pos h] at h2
      cases h2

theorem animationkey_spec_witness :
    ∃ a : AnimationKey, AnimationKey.init 0 = Except.ok a ∧ a.vector_size = 4
      ∧ ∃ a2, a.add_key 1 [1, 2, 3, 4] = Except.ok a2
          ∧ a2.keys = a.keys ++ [(1, [1, 2, 3, 4])] := by
  obtain ⟨a, ha⟩ := (animationkey_spec.1 0).mpr (Or.inl rfl)
  have hsize := animationkey_spec.2.1 0 a ha
  rw [if_pos rfl] at hsize
  have hlen : ([1, 2, 3, 4] : List ℚ).length = a.vector_size := by
    rw [hsize]
    decide
  obtain ⟨a2, ha2⟩ := (animationkey_spec.2.2.1 a 1 [1, 2, 3, 4]).mpr hlen
  exact ⟨a, ha, hsize, a2, ha2,
    (animationkey_spec.2.2.2 a 1 [1, 2, 3, 4] a2 ha2).1⟩

/-- Helper for C6: in any list whose keys are pairwise distinct, find? by a
member's key returns that member and its key occurs exactly once. -/
theorem find_count_of_nodup {α : Type} (key : α → String) (l : List α)
    (h : (l.map key).Nodup) (f : α) (hf : f ∈ l) :
    l.find? (fun g => key g == key f) = some f
    ∧ l.countP (fun g => key g == key f) = 1 := by
  induction l with
  | nil => cases hf
  | cons a l ih =>
    rw [List.map_cons, List.nodup_cons] at h
    rcases List.mem_cons.mp hf with rfl | hf2
    · have hzero : l.countP (fun g => key g == key f) = 0 := by
        rw [List.countP_eq_zero]
        intro g hg
        simp only [beq_iff_eq]
        intro hkey
        exact h.1 (hkey ▸ List.mem_map_of_mem key hg)
      constructor
      · exact List.find?_cons_of_pos _ (by simp)
      · rw [List.countP_cons_of_pos _ _ (by simp), hzero]
    · have hne : (key a == key f) = false := by
        simp only [beq_eq_false_iff_ne, ne_eq]
        intro hkey
        exact h.1 (hkey ▸ List.mem_map_of_mem key hf2)
      obtain ⟨ih1, ih2⟩ := ih h.2 hf2
      constructor
      · rw [List.find?_cons_of_neg _ (by simp [hne]), ih1]
      · rw [List.countP_cons_of_neg _ _ (by simp [hne]), ih2]

/-- C6: in a document whose frames all have pairwise-distinct names,
find_frame on a frame's name returns that frame, and the name occurs
exactly once in the depth-first pre-order traversal. -/
theorem find_frame_unique (fs : FrameList)
    (h : ((getAllFramesList fs).map Frame.name).Nodup)
    (f : Frame) (hf : f ∈ getAllFramesList fs) :
    find_frame fs f.name = some f
    ∧ (getAllFramesList fs).countP (fun g => g.name == f.name) = 1 :=
  find_count_of_nodup Frame.name (getAllFramesList fs) h f hf

def frameA : Frame :=
  Frame.mk "A" false none none none none none none none FrameList.nil [] []

def frameB : Frame :=
  Frame.mk "B" false none none none none none none none
    (FrameList.cons frameA FrameList.nil) [] []

theorem find_frame_unique_witness :
    find_frame (FrameList.cons frameB FrameList.nil) (Frame.name frameA)
      = some frameA
    ∧ (getAllFramesList (FrameList.cons frameB FrameList.nil)).countP
        (fun g => g.name == Frame.name frameA) = 1 :=
  find_frame_unique (FrameList.cons frameB FrameList.nil)
    (by decide)
    frameA
    (List.mem_cons_of_mem frameB (List.mem_cons_self frameA []))

/-- The allow-list as the spec words it: characters in A-Z, a-z, 0-9, and
the underscore and hyphen. -/
def specAllowedChar (c : Char) : Prop :=
  ('A' ≤ c ∧ c ≤ 'Z') ∨ ('a' ≤ c ∧ c ≤ 'z') ∨ ('0' ≤ c ∧ c ≤ '9')
    ∨ c = '_' ∨ c = '-'

instance (c : Char) : Decidable (specAllowedChar c) := by
  unfold specAllowedChar
  infer_instance

theorem char_eq_iff_toNat (c d : Char) : c = d ↔ c.toNat = d.toNat :=
  ⟨fun h => congrArg Char.toNat h,
   fun h => Char.ofNat_toNat c ▸ Char.ofNat_toNat d ▸ congrArg Char.ofNat h⟩

/-- The source's 64-character allow-list string contains exactly the
characters the spec describes. -/
theorem mem_allowed_iff (c : Char) :
    allowed_chars.data.contains c = true ↔ specAllowedChar c := by
  have hmem : allowed_chars.data.contains c = true ↔ c ∈ allowed_chars.data := by
    simp
  have hnat : c ∈ allowed_chars.data ↔ c.toNat ∈ allowed_chars.data.map Char.toNat := by
    constructor
    · exact fun hx => List.mem_map_of_mem Char.toNat hx
    · intro hx
      rcases List.mem_map.mp hx with ⟨d, hd, hdc⟩
      rwa [(char_eq_iff_toNat d c).mpr hdc] at hd
  have hlist : allowed_chars.data.map Char.toNat
      = [81, 87, 69, 82, 84, 89, 85, 73, 79, 80, 65, 83, 68, 70, 71, 72, 74,
         75, 76, 90, 88, 67, 86, 66, 78, 77, 113, 119, 101, 114, 116, 121,
         117, 105, 111, 112, 97, 115, 100, 102, 103, 104, 106, 107, 108, 122,
         120, 99, 118, 98, 110, 109, 49, 50, 51, 52, 53, 54, 55, 56, 57, 48,
         95, 45] := by decide
  have hspec : specAllowedChar c ↔
      ((65 ≤ c.toNat ∧ c.toNat ≤ 90) ∨ (97 ≤ c.toNat ∧ c.toNat ≤ 122)
        ∨ (48 ≤ c.toNat ∧ c.toNat ≤ 57) ∨ c.toNat = 95 ∨ c.toNat = 45) := by
    unfold specAllowedChar
    rw [char_eq_iff_toNat c '_', char_eq_iff_toNat c '-']
    exact Iff.rfl
  rw [hmem, hnat, hlist, hspec]
  simp only [List.mem_cons, List.not_mem_nil, or_false]
  omega

/-- C9: get_safe_name keeps the characters of the allow-list A-Za-z0-9_-
unchanged and replaces every other character by an underscore; the empty
name becomes "unnamed", and in particular "My Object!" sanitizes to
"My_Object_". -/
theorem get_safe_name_spec :
    (∀ name : String, name ≠ "" →
       (get_safe_name name).data
         = name.data.map (fun c => if specAllowedChar c then c else '_'))
    ∧ get_safe_name "" = "unnamed"
    ∧ get_safe_name "My Object!" = "My_Object_" := by
  have hfun : ∀ c : Char,
      (if allowed_chars.data.contains c then c else '_')
        = (if specAllowedChar c then c else '_') := by
    intro c
    by_cases hc : specAllowedChar c
    · rw [if_pos hc, if_pos ((mem_allowed_iff c).mpr hc)]
    · rw [if_neg hc, if_neg (fun hh => hc ((mem_allowed_iff c).mp hh))]
  refine ⟨?_, rfl, by decide⟩
  intro name h
  have hval : get_safe_name name
      = String.mk (name.data.map
          (fun c => if allowed_chars.data.contains c then c else '_')) := by
    unfold get_safe_name
    rw [if_neg h]
  rw [hval]
  show name.data.map _ = _
  simp only [hfun]

theorem get_safe_name_spec_witness :
    (get_safe_name "My Object!").data
      = "My Object!".data.map (fun c => if specAllowedChar c then c else '_') :=
  get_safe_name_spec.1 "My Object!" (by decide)

/-- C10 counterexample: Material(diffuse=[]) does not raise even though the
empty list's length is neither 3 nor 4: the empty list is falsy in
Python, so the default diffuse is silently used and construction
succeeds. -/
theorem material_init_counterexample :
    Material.init (some []) DEFAULT_HARDNESS none none none
        DEFAULT_SHADING_TYPE none
      = Except.ok Material.default_material
    ∧ ([] : List ℚ).length ≠ 3 ∧ ([] : List ℚ).length ≠ 4 := by
  refine ⟨rfl, by decide, by decide⟩

/-- C10 amended: a supplied empty color list is treated like an omitted one
(the default is used); for a NON-EMPTY diffuse, construction raises
exactly when its length is neither 3 nor 4, a 3-component diffuse is
stored with alpha 1.0 appended, and a 4-component diffuse is stored
unchanged; a non-empty specular, emissive, or ambient raises exactly when
its length is not 3, and valid supplied colors are stored unchanged,
defaults filling omitted ones. -/
theorem material_init_spec :
    (∀ (d : List ℚ) (h : ℚ) (st : ℤ) (tx : Option String), d.length = 3 →
       Material.init (some d) h none none none st tx
         = Except.ok ⟨d ++ [1], DEFAULT_SPECULAR, DEFAULT_EMISSIVE,
             DEFAULT_AMBIENT, h, st, tx⟩)
    ∧ (∀ (d : List ℚ) (h : ℚ) (st : ℤ) (tx : Option String),
       d ≠ [] → d.length ≠ 3 → d.length ≠ 4 →
       ∃ msg, Material.init (some d) h none none none st tx
         = Except.error msg)
    ∧ (∀ (s : List ℚ) (h : ℚ) (st : ℤ) (tx : Option String),
       s ≠ [] → s.length ≠ 3 →
       ∃ msg, Material.init none h (some s) none none st tx
         = Except.error msg)
    ∧ (∀ (e : List ℚ) (h : ℚ) (st : ℤ) (tx : Option String),
       e ≠ [] → e.length ≠ 3 →
       ∃ msg, Material.init none h none none (some e) st tx
         = Except.error msg)
    ∧ (∀ (a : List ℚ) (h : ℚ) (st : ℤ) (tx : Option String),
       a ≠ [] → a.length ≠ 3 →
       ∃ msg, Material.init none h none (some a) none st tx
         = Except.error msg)
    ∧ (∀ (d s e a : List ℚ) (h : ℚ) (st : ℤ) (tx : Option String),
       d.length = 4 → s.length = 3 → e.length = 3 → a.length = 3 →
       Material.init (some d) h (some s) (some a) (some e) st tx
         = Except.ok ⟨d, s, e, a, h, st, tx⟩) := by
  refine ⟨?_, ?_, ?_, ?_, ?_, ?_⟩
  · intro d h st tx hlen
    obtain ⟨x, y, z, rfl⟩ := List.length_eq_three.mp hlen
    rfl
  · intro d h st tx hne h3 h4
    obtain ⟨x, xs, rfl⟩ : ∃ x xs, d = x :: xs := by
      cases d with
      | nil => exact absurd rfl hne
      | cons x xs => exact ⟨x, xs, rfl⟩
    refine ⟨"Material Diffuse color must be RGB or RGBA.", ?_⟩
    show (if (x :: xs).length ≠ 3 ∧ (x :: xs).length ≠ 4 then _ else _) = _
    rw [if_pos ⟨h3, h4⟩]
  · intro s h st tx hne h3
    obtain ⟨x, xs, rfl⟩ : ∃ x xs, s = x :: xs := by
      cases s with
      | nil => exact absurd rfl hne
      | cons x xs => exact ⟨x, xs, rfl⟩
    refine ⟨"Material Specular color must be RGB.", ?_⟩
    have key : Material.init none h (some (x :: xs)) none none st tx
        = if (x :: xs).length ≠ 3 then
            Except.error "Material Specular color must be RGB."
          else Except.ok ⟨DEFAULT_DIFFUSE, x :: xs, DEFAULT_EMISSIVE,
            DEFAULT_AMBIENT, h, st, tx⟩ := rfl
    rw [key, if_pos h3]
  · intro e h st tx hne h3
    obtain ⟨x, xs, rfl⟩ : ∃ x xs, e = x :: xs := by
      cases e with
      | nil => exact absurd rfl hne
      | cons x xs => exact ⟨x, xs, rfl⟩
    refine ⟨"Material Emissive color must be RGB.", ?_⟩
    have key : Material.init none h none none (some (x :: xs)) st tx
        = if (x :: xs).length ≠ 3 then
            Except.error "Material Emissive color must be RGB."
          else Except.ok ⟨DEFAULT_DIFFUSE, DEFAULT_SPECULAR, x :: xs,
            DEFAULT_AMBIENT, h, st, tx⟩ := rfl
    rw [key, if_pos h3]
  · intro a h st tx hne h3
    obtain ⟨x, xs, rfl⟩ : ∃ x xs, a = x :: xs := by
      cases a with
      | nil => exact absurd rfl hne
      | cons x xs => exact ⟨x, xs, rfl⟩
    refine ⟨"Material Ambient color must be RGB.", ?_⟩
    have key : Material.init none h none (some (x :: xs)) none st tx
        = if (x :: xs).length ≠ 3 then
            Except.error "Material Ambient color must be RGB."
          else Except.ok ⟨DEFAULT_DIFFUSE, DEFAULT_SPECULAR, DEFAULT_EMISSIVE,
            x :: xs, h, st, tx⟩ := rfl
    rw [key, if_pos h3]
  · intro d s e a h st tx hd hs he ha
    rcases d with _ | ⟨d1, _ | ⟨d2, _ | ⟨d3, _ | ⟨d4, drest⟩⟩⟩⟩
    · simp at hd
    · simp at hd
    · simp at hd
    · simp at hd
    obtain rfl : drest = [] := by
      have : drest.length = 0 := by
        simpa using hd
      simpa using this
    obtain ⟨s1, s2, s3, rfl⟩ := List.length_eq_three.mp hs
    obtain ⟨e1, e2, e3, rfl⟩ := List.length_eq_three.mp he
    obtain ⟨a1, a2, a3, rfl⟩ := List.length_eq_three.mp ha
    rfl

theorem material_init_spec_witness :
    Material.init (some [1, 0, 0]) DEFAULT_HARDNESS none none none
        DEFAULT_SHADING_TYPE none
      = Except.ok ⟨[1, 0, 0, 1], DEFAULT_SPECULAR, DEFAULT_EMISSIVE,
          DEFAULT_AMBIENT, DEFAULT_HARDNESS, DEFAULT_SHADING_TYPE, none⟩ :=
  material_init_spec.1 [1, 0, 0] DEFAULT_HARDNESS DEFAULT_SHADING_TYPE none rfl

/-- C7: matrix_to_xsi is not an involution: applying it twice to the matrix
with a single 1 in row 0, column 1 yields the matrix with -1 there. -/
theorem matrix_to_xsi_not_involutive :
    ∃ m : Mat4, matrix_to_xsi (matrix_to_xsi m) ≠ m :=
  ⟨⟨⟨0, 1, 0, 0⟩, ⟨0, 0, 0, 0⟩, ⟨0, 0, 0, 0⟩, ⟨0, 0, 0, 0⟩⟩, by decide⟩

end B2X
